import Mathlib

/-!
Verification development for the pufferd process-supervision daemon.

The Go sources embedded here are:
- programs/program.go  (programData: Start/Stop/Install/Edit/Reload/GetNetwork)
- environments/standard.go and environments/tty.go  (the two Environment variants)
- the literal-file-write operation (WriteFile.Run)

Go conventions are mapped as follows: a Go error value is `Option String`
(`none` is the nil error); a Go runtime panic (failed type assertion, call
through a nil interface) makes the embedding return `none` at an outer
`Option` layer; `map[string]interface{}` values are the inductive `GoValue`;
OS interaction (process table, spawning, pipes, writes) is a record of
oracles `OS` threaded explicitly.
-/

namespace Pufferd

/-! ### Go values and the Data map (programs/program.go) -/

/-- A Go `interface\x7b\x7d` value as used in a program's `Data` map: nil, a raw
string, or a parameter descriptor map whose only relevant field is "value". -/
inductive GoValue where
  | vnil : GoValue
  | vstr : String → GoValue
  | vdesc : GoValue → GoValue
deriving DecidableEq, Repr

/-- A Go `map[string]interface\x7b\x7d`, as an association list with distinct keys
maintained by the operations below. -/
abbrev DataMap := List (String × GoValue)

/-- Go map indexing: an absent key reads as the zero value `nil`. -/
def mapLookup (k : String) : DataMap → GoValue
  | [] => GoValue.vnil
  | kv :: rest => if kv.1 = k then kv.2 else mapLookup k rest

/-- Go `delete(m, k)`. -/
def mapDelete (k : String) (m : DataMap) : DataMap :=
  m.filter (fun kv => !(kv.1 == k))

/-- Go `m[k] = v` (replace or add). -/
def mapInsert (k : String) (v : GoValue) (m : DataMap) : DataMap :=
  mapDelete k m ++ [(k, v)]

/-! ### Program data (programs/program.go) -/

/-- The `Runtime` struct of programs/program.go. -/
structure Runtime where
  stop : String
  pre : List String
  post : List String
  program : String
  arguments : List String
  enabled : Bool
  autostart : Bool
deriving DecidableEq, Repr

/-- Modelled from the spec: the install package (InstallSection,
GenerateInstallProcess, HasNext, RunNext) is not under src/. Per spec §3/§4.5
an operation's single capability is to execute one provisioning step and
return success or a failure reason, so an operation is modelled by the
result it produces when run. -/
structure Op where
  result : Option String
deriving DecidableEq, Repr

/-- The `programData` struct of programs/program.go. The bound Environment is
kept as an opaque reference identity. -/
structure ProgramData where
  RunData : Runtime
  InstallData : List Op
  Environment : Nat
  Identifier : String
  Data : DataMap
deriving DecidableEq, Repr

/-- programData.Edit (program.go:250-259): for each supplied key, when the
value is nil or the empty string the key is deleted, and then - with no else
branch in the source - the same key is unconditionally written back with the
supplied value. Persistence via the package-level Save (not under src/) does
not affect the resulting Data and is omitted. -/
def edit (overrides : DataMap) (d : DataMap) : DataMap :=
  overrides.foldl
    (fun acc kv =>
      let acc1 :=
        if kv.2 = GoValue.vnil ∨ kv.2 = GoValue.vstr "" then mapDelete kv.1 acc
        else acc
      mapInsert kv.1 kv.2 acc1)
    d

/-- programData.Reload (program.go:261-266): wholesale replacement of Data,
InstallData and RunData from another definition. -/
def Reload (p repl : ProgramData) : ProgramData :=
  { p with Data := repl.Data, InstallData := repl.InstallData, RunData := repl.RunData }

/-- The Go double type assertion `v.(map[string]interface\x7b\x7d)["value"].(string)`:
succeeds only on a descriptor whose value field is a string; anything else
panics, modelled by `none`. -/
def descString : GoValue → Option String
  | GoValue.vdesc (GoValue.vstr s) => some s
  | _ => none

/-- One half of GetNetwork (program.go:272-288): a nil entry keeps the
default, any other entry is type-asserted down to its string value. -/
def netComponent (dflt : String) (v : GoValue) : Option String :=
  match v with
  | GoValue.vnil => some dflt
  | v => descString v

/-- programData.GetNetwork (program.go:272-288). `none` is a Go panic from a
failed type assertion on a malformed entry. -/
def GetNetwork (p : ProgramData) : Option String :=
  match netComponent "0.0.0.0" (mapLookup "ip" p.Data),
        netComponent "0" (mapLookup "port" p.Data) with
  | some ip, some port => some (ip ++ ":" ++ port)
  | _, _ => none

/-! ### Environment state and OS oracles (environments/standard.go, tty.go) -/

/-- A Go `exec.Cmd` process handle: the `Process` field is nil (`none`) until
`Start` has succeeded, and carries the PID afterwards. -/
structure ProcHandle where
  pid : Option Nat
deriving DecidableEq, Repr

/-- The mutable state shared by the `standard` and `tty` structs: the tracked
main process, the stdin writer, and the console buffer contents (the part of
utils.Cache the embedded operations touch). -/
structure EnvState where
  mainProcess : Option ProcHandle
  stdInWriter : Option Nat
  console : List String
deriving DecidableEq, Repr

/-- Outcome of `exec.Cmd.Start` in the Direct variant. -/
inductive SpawnResult where
  | ok : Nat → SpawnResult
  | fail : String → SpawnResult
deriving DecidableEq, Repr

/-- Outcome of `pty.Start` in the PTY variant: a PID plus the PTY master
stream on success, nil file and an error on failure. -/
inductive PtyResult where
  | ok : Nat → Nat → PtyResult
  | fail : String → PtyResult
deriving DecidableEq, Repr

/-- The operating-system oracles the environment methods consult: process
liveness (FindProcess + Signal 0), spawning, the stdin pipe, kill results,
and stream-write results. -/
structure OS where
  alive : Nat → Bool
  spawn : String → List String → SpawnResult
  stdinPipe : Option Nat
  ptyStart : String → List String → PtyResult
  killErr : Nat → Option String
  writeErr : Nat → String → Option String

/-- standard.IsRunning / tty.IsRunning (standard.go:117-128, tty.go:124-135):
true iff the handle exists, its Process field is set, and the liveness probe
against the PID succeeds. -/
def isRunning (os : OS) (s : EnvState) : Bool :=
  match s.mainProcess with
  | none => false
  | some h =>
    match h.pid with
    | none => false
    | some pid => os.alive pid

/-- The PID read off `s.mainProcess.Process.Pid`; only dereferenced on paths
where IsRunning was just observed true, so the fallback is unreachable there. -/
def currentPid (s : EnvState) : Nat :=
  match s.mainProcess with
  | some h =>
    match h.pid with
    | some pid => pid
    | none => 0
  | none => 0

/-- The AlreadyRunning error text of standard.go:56 / tty.go:59. -/
def alreadyRunningMsg (pid : Nat) : String :=
  "A process is already running (" ++ Nat.repr pid ++ ")"

/-- The NotStarted error text of standard.go:85 / tty.go:92. -/
def notStartedMsg : String := "Main process has not been started"

/-- Environment.DisplayToConsole: appends one line to the console buffer. -/
def displayToConsole (msg : String) (s : EnvState) : EnvState :=
  { s with console := s.console ++ [msg] }

/-- The body of standard.ExecuteAsync after the running guard
(standard.go:59-80): a fresh Cmd replaces the handle, the stdin pipe is
stored even when its creation failed, then Start either sets the Process
field (PID) or leaves it nil and yields the returned error. -/
def execStdSpawn (os : OS) (cmd : String) (args : List String) (s : EnvState) :
    Option String × EnvState :=
  match os.spawn cmd args with
  | SpawnResult.ok pid =>
      (none, { s with mainProcess := some ⟨some pid⟩, stdInWriter := os.stdinPipe })
  | SpawnResult.fail msg =>
      (some msg, { s with mainProcess := some ⟨none⟩, stdInWriter := os.stdinPipe })

/-- standard.ExecuteAsync (standard.go:54-81). -/
def executeAsyncStd (os : OS) (cmd : String) (args : List String) (s : EnvState) :
    Option String × EnvState :=
  if isRunning os s then (some (alreadyRunningMsg (currentPid s)), s)
  else execStdSpawn os cmd args s

/-- The body of tty.ExecuteAsync after the running guard (tty.go:62-87): the
fresh Cmd is stored before pty.Start; on success the Process field holds the
PID and the PTY master becomes the stdin writer, on failure pty.Start returns
a nil file so the writer is cleared and the error is returned. -/
def execTtySpawn (os : OS) (cmd : String) (args : List String) (s : EnvState) :
    Option String × EnvState :=
  match os.ptyStart cmd args with
  | PtyResult.ok pid master =>
      (none, { s with mainProcess := some ⟨some pid⟩, stdInWriter := some master })
  | PtyResult.fail msg =>
      (some msg, { s with mainProcess := some ⟨none⟩, stdInWriter := none })

/-- tty.ExecuteAsync (tty.go:57-88). -/
def executeAsyncTty (os : OS) (cmd : String) (args : List String) (s : EnvState) :
    Option String × EnvState :=
  if isRunning os s then (some (alreadyRunningMsg (currentPid s)), s)
  else execTtySpawn os cmd args s

/-- standard.ExecuteInMainProcess / tty.ExecuteInMainProcess
(standard.go:83-91, tty.go:90-98): guarded by IsRunning - not by stream
existence - then io.WriteString of the text plus a carriage return to the
stored writer. A write through a nil writer is a Go panic, the outer `none`. -/
def executeInMainProcess (os : OS) (cmd : String) (s : EnvState) :
    Option (Option String × EnvState) :=
  if isRunning os s then
    match s.stdInWriter with
    | none => none
    | some w => some (os.writeErr w (cmd ++ "\r"), s)
  else some (some notStartedMsg, s)

/-- OS-level effects performed by Kill, recorded as a trace. -/
inductive OsAction where
  | killSig : Nat → OsAction
  | release : Nat → OsAction
deriving DecidableEq, Repr

/-- standard.Kill / tty.Kill (standard.go:93-101, tty.go:100-108): a no-op
when not running; otherwise Process.Kill, Process.Release, and the handle is
cleared. Returns the error, the new state, and the OS actions performed. -/
def kill (os : OS) (s : EnvState) : Option String × EnvState × List OsAction :=
  if isRunning os s then
    (os.killErr (currentPid s), { s with mainProcess := none },
      [OsAction.killSig (currentPid s), OsAction.release (currentPid s)])
  else (none, s, [])

/-! ### Program lifecycle operations (programs/program.go) -/

/-- Rendering of a substituted parameter value as text. -/
def render : GoValue → String
  | GoValue.vstr s => s
  | _ => ""

/-- Modelled from the spec: utils.ReplaceTokensInArr is not under src/; per
§6, argument-template substitution replaces named placeholders with the
corresponding Data parameter's current value, rendered as text. -/
def replaceTokensInArr (args : List String) (data : DataMap) : List String :=
  args.map
    (fun a => data.foldl (fun acc kv => acc.replace ("%" ++ kv.1 ++ "%") (render kv.2)) a)

/-- The Go type assertion `v.(map[string]interface\x7b\x7d)` on a Data entry;
a non-descriptor value panics, modelled by `none`. -/
def descVal : GoValue → Option GoValue
  | GoValue.vdesc v => some v
  | _ => none

/-- The value-extraction loop at the top of programData.Start
(program.go:100-103): each Data entry is asserted to a descriptor map and its
"value" field is taken; any other shape is a panic. -/
def dataValues : DataMap → Option DataMap
  | [] => some []
  | kv :: rest =>
    match descVal kv.2, dataValues rest with
    | some v, some r => some ((kv.1, v) :: r)
    | _, _ => none

/-- programData.Start (program.go:97-111), with the Direct environment: the
status line is written, Data values are extracted, the substituted argument
list is passed to ExecuteAsync, and on failure a failure line is written and
the error returned. -/
def start (os : OS) (p : ProgramData) (e : EnvState) : Option (Option String × EnvState) :=
  let e1 := displayToConsole "Starting server" e
  match dataValues p.Data with
  | none => none
  | some vals =>
    let r := executeAsyncStd os p.RunData.program
      (replaceTokensInArr p.RunData.arguments vals) e1
    match r.1 with
    | some msg => some (some msg, displayToConsole "Failed to start server\n" r.2)
    | none => some (none, r.2)

/-- programData.Stop (program.go:115-123): the configured stop command is
written to the main process and a status line is appended. -/
def stopP (os : OS) (p : ProgramData) (e : EnvState) : Option (Option String × EnvState) :=
  match executeInMainProcess os p.RunData.stop e with
  | none => none
  | some (some err, e1) => some (some err, displayToConsole "Failed to stop server\n" e1)
  | some (none, e1) => some (none, displayToConsole "Server stopped\n" e1)

/-- The HasNext/RunNext loop of programData.Install (program.go:174-181) over
the modelled pipeline: operations run in list order, the first failure breaks
the loop. Returns the executed operations in order and the final error. -/
def runLoop : List Op → List Op × Option String
  | [] => ([], none)
  | op :: rest =>
    match op.result with
    | some e => ([op], some e)
    | none =>
      let r := runLoop rest
      (op :: r.1, r.2)

/-- The portion of programData.Install after the stop phase
(program.go:169-183). os.MkdirAll's result is discarded by the source and has
no further observable effect here. The "Server installed" line is written
unconditionally, even after a failed step, exactly as in the source. -/
def installBody (p : ProgramData) (e : EnvState) : List Op × Option String × EnvState :=
  let e1 := displayToConsole "Installing server\n" e
  let r := runLoop p.InstallData
  let e2 :=
    match r.2 with
    | some _ => displayToConsole "Error installing server\n" e1
    | none => e1
  (r.1, r.2, displayToConsole "Server installed\n" e2)

/-- programData.Install (program.go:158-184): when running, Stop is attempted
first and a stop failure aborts the install with that error; otherwise the
pipeline runs fail-fast. The outer `none` is a panic propagated from Stop. -/
def installP (os : OS) (p : ProgramData) (e : EnvState) :
    Option (List Op × Option String × EnvState) :=
  if isRunning os e then
    match stopP os p e with
    | none => none
    | some (some err, e1) => some ([], some err, displayToConsole "Error stopping server\n" e1)
    | some (none, e1) => some (installBody p e1)
  else some (installBody p e)

/-! ### The literal-file-write operation (WriteFile.Run) -/

/-- A filesystem in which some paths fail to be written (permissions, missing
directories); a successful write stores the contents at the path. -/
structure FS where
  files : List (String × String)
  failing : String → Bool

/-- ioutil.WriteFile against the modelled filesystem. -/
def fsWrite (fs : FS) (path text : String) : Option String × FS :=
  if fs.failing path then
    (some ("open " ++ path ++ ": permission denied"), fs)
  else
    (none, { fs with files := (path, text) :: fs.files.filter (fun kv => !(kv.1 == path)) })

/-- Modelled from the spec: utils.JoinPath is not under src/; per §4.5 the
target path is resolved relative to the Environment's root directory. -/
def joinPath (root file : String) : String := root ++ "/" ++ file

/-- The WriteFile operation struct (operations source, lines 323-327); the
Environment field is represented by passing its root directory to Run. -/
structure WriteFile where
  TargetFile : String
  Text : String
deriving DecidableEq, Repr

/-- WriteFile.Run (operations source, lines 329-333): the target is joined to
the root, ioutil.WriteFile is invoked, its error is discarded, and nil is
returned unconditionally. -/
def WriteFile.Run (fs : FS) (root : String) (c : WriteFile) : Option String × FS :=
  let target := joinPath root c.TargetFile
  let r := fsWrite fs target c.Text
  (none, r.2)

/-! ### The WaitForMainProcessFor timeout race (standard.go:134-147, tty.go:141-154)

In the `timeout > 0` branch the source runs `time.AfterFunc` whose callback
executes `err = s.Kill()` on the timer goroutine, while the calling goroutine
blocks on `s.wait.Wait()` and then returns the named result `err`. The
scenario modelled is the one where the timer fires before normal completion:
the events are the timer's Kill call (`killCall`), the reaper goroutine's
`wait.Done()` after the killed process is reaped (`reapDone`), the timer
goroutine's unsynchronized store to `err` (`writeErr`, sequenced after Kill
returns), and the waiter unblocking and returning the current value of `err`
(`ret`, enabled only once the reaper has signalled). No synchronization
orders `writeErr` against `ret`, so both interleavings below are real
executions of the source. -/

/-- An event of the timeout race. -/
inductive RaceEv where
  | killCall
  | reapDone
  | writeErr
  | ret
deriving DecidableEq, Repr

/-- Shared state of the three goroutines involved in the timeout race. -/
structure RaceState where
  killed : Bool
  reaped : Bool
  errVar : Option String
  timerStored : Bool
  retVal : Option (Option String)
deriving DecidableEq, Repr

/-- One event of the race, with its enabledness conditions; a disabled event
yields `none`. `killRes` is the error returned by Process.Kill. -/
def raceStep (killRes : Option String) (s : RaceState) (e : RaceEv) : Option RaceState :=
  match e with
  | RaceEv.killCall => if s.killed then none else some { s with killed := true }
  | RaceEv.reapDone =>
      if s.killed ∧ ¬s.reaped then some { s with reaped := true } else none
  | RaceEv.writeErr =>
      if s.killed ∧ ¬s.timerStored then some { s with errVar := killRes, timerStored := true }
      else none
  | RaceEv.ret =>
      if s.reaped ∧ s.retVal = none then some { s with retVal := some s.errVar } else none

/-- Run a schedule of race events from the initial state (`err` starts nil). -/
def runRace (killRes : Option String) (σ : List RaceEv) : Option RaceState :=
  σ.foldlM (raceStep killRes) ⟨false, false, none, false, none⟩

/-- The error value WaitForMainProcessFor returns to its caller under the
given interleaving; `none` at the outer layer means the schedule was not a
legal execution. -/
def raceOutcome (killRes : Option String) (σ : List RaceEv) : Option (Option String) :=
  match runRace killRes σ with
  | some s => s.retVal
  | none => none

/-! ### Concrete sample values used by witnesses and counterexamples -/

/-- An OS in which no PID is alive, spawning fails, and the stdin pipe is
stream 7. -/
def osQuiet : OS :=
  ⟨fun _ => false, fun _ _ => SpawnResult.fail "spawn failed", some 7,
   fun _ _ => PtyResult.fail "pty failed", fun _ => none, fun _ _ => none⟩

/-- An OS in which every PID is alive and writes succeed. -/
def osLive : OS :=
  ⟨fun _ => true, fun _ _ => SpawnResult.fail "spawn failed", some 7,
   fun _ _ => PtyResult.fail "pty failed", fun _ => none, fun _ _ => none⟩

/-- An environment with no process handle and no input stream. -/
def envIdle : EnvState := ⟨none, none, []⟩

/-- An environment tracking a started process with PID 42 and stream 3. -/
def envLive : EnvState := ⟨some ⟨some 42⟩, some 3, []⟩

/-- An environment whose tracked process (PID 5) has died but whose input
stream (stream 3) was established and still exists. -/
def envDead : EnvState := ⟨some ⟨some 5⟩, some 3, []⟩

/-- A sample runtime spec. -/
def rtSample : Runtime := ⟨"stop", [], [], "/bin/prog", [], true, false⟩

/-- A program whose install spec is [A succeeds, B fails, C succeeds]. -/
def pInstall : ProgramData := ⟨rtSample, [⟨none⟩, ⟨some "boom"⟩, ⟨none⟩], 0, "srv", []⟩

/-- A program with an empty install spec and empty Data. -/
def pPlain : ProgramData := ⟨rtSample, [], 0, "srv", []⟩

/-! ### Helper lemmas -/

theorem runLoop_failFast_aux (ops1 : List Op) (b : Op) (ops2 : List Op) (msg : String)
    (h1 : ∀ o ∈ ops1, o.result = none) (hb : b.result = some msg) :
    runLoop (ops1 ++ b :: ops2) = (ops1 ++ [b], some msg) := by
  induction ops1 with
  | nil => simp [runLoop, hb]
  | cons a rest ih =>
    have ha : a.result = none := h1 a (by simp)
    have h1r : ∀ o ∈ rest, o.result = none := fun o ho => h1 o (by simp [ho])
    simp [runLoop, ha, ih h1r]

theorem executeAsyncStd_running_aux (os : OS) (cmd : String) (args : List String)
    (s : EnvState) (pid : Nat)
    (hm : s.mainProcess = some ⟨some pid⟩) (ha : os.alive pid = true) :
    executeAsyncStd os cmd args s = (some (alreadyRunningMsg pid), s) := by
  simp [executeAsyncStd, isRunning, currentPid, hm, ha]

theorem executeAsyncStd_spawnFail_aux (os : OS) (cmd : String) (args : List String)
    (s : EnvState) (msg : String)
    (hrun : isRunning os s = false) (hsp : os.spawn cmd args = SpawnResult.fail msg) :
    executeAsyncStd os cmd args s
      = (some msg, { s with mainProcess := some ⟨none⟩, stdInWriter := os.stdinPipe }) := by
  simp [executeAsyncStd, hrun, execStdSpawn, hsp]

/-! ### Claim theorems -/

/-- C1: the claim fails on the code and the spec is the evident intent. In
programData.Edit the delete for an empty supplied value (program.go:253) is
immediately undone by the unconditional write that follows it
(program.go:255), so Edit with value "" for key "port" leaves Data with the
entry ("port", "") instead of removing the key. This theorem evaluates the
embedded Edit at that failing input. -/
theorem edit_emptyValue_keepsKey :
    edit [("port", GoValue.vstr "")] [("port", GoValue.vdesc (GoValue.vstr "25565"))]
      = [("port", GoValue.vstr "")] := by decide

/-- C2: Install runs the pipeline operations strictly in list order; the
first failing operation stops the pipeline, later operations are not
executed, and Install returns exactly that operation's error. The executed
operations are exactly the successful ones before the failure plus the
failing one. -/
theorem install_failFast (os : OS) (p : ProgramData) (e : EnvState)
    (ops1 : List Op) (b : Op) (ops2 : List Op) (msg : String)
    (hrun : isRunning os e = false)
    (hops : p.InstallData = ops1 ++ b :: ops2)
    (h1 : ∀ o ∈ ops1, o.result = none)
    (hb : b.result = some msg) :
    installP os p e = some (ops1 ++ [b], some msg,
      displayToConsole "Server installed\n"
        (displayToConsole "Error installing server\n"
          (displayToConsole "Installing server\n" e))) := by
  have hr := runLoop_failFast_aux ops1 b ops2 msg h1 hb
  simp [installP, hrun, installBody, hops, hr]

/-- C2 witness: with operations [A succeeds, B fails with "boom", C succeeds]
only A and B execute and the returned error is B's. -/
theorem install_failFast_witness :
    installP osQuiet pInstall envIdle = some ([⟨none⟩, ⟨some "boom"⟩], some "boom",
      displayToConsole "Server installed\n"
        (displayToConsole "Error installing server\n"
          (displayToConsole "Installing server\n" envIdle))) :=
  install_failFast osQuiet pInstall envIdle [⟨none⟩] ⟨some "boom"⟩ [⟨none⟩] "boom"
    rfl rfl (by decide) rfl

/-- C3: for both the Direct and the PTY variant, ExecuteAsync on an
environment whose tracked process is alive returns the AlreadyRunning error
whose message spells out the tracked PID, and returns the state - process
handle, input stream and console included - completely unchanged. -/
theorem executeAsync_alreadyRunning (os : OS) (cmd : String) (args : List String)
    (s : EnvState) (pid : Nat)
    (hm : s.mainProcess = some ⟨some pid⟩) (ha : os.alive pid = true) :
    executeAsyncStd os cmd args s
        = (some ("A process is already running (" ++ Nat.repr pid ++ ")"), s)
      ∧ executeAsyncTty os cmd args s
        = (some ("A process is already running (" ++ Nat.repr pid ++ ")"), s) := by
  have hrun : isRunning os s = true := by simp [isRunning, hm, ha]
  have hpid : currentPid s = pid := by simp [currentPid, hm]
  refine ⟨?_, ?_⟩ <;> simp [executeAsyncStd, executeAsyncTty, hrun, hpid, alreadyRunningMsg]

/-- C3 witness: a live environment tracking PID 42 rejects ExecuteAsync with
the PID in the message, in both variants. -/
theorem executeAsync_alreadyRunning_witness :
    executeAsyncStd osLive "cmd" [] envLive
        = (some ("A process is already running (" ++ Nat.repr 42 ++ ")"), envLive)
      ∧ executeAsyncTty osLive "cmd" [] envLive
        = (some ("A process is already running (" ++ Nat.repr 42 ++ ")"), envLive) :=
  executeAsync_alreadyRunning osLive "cmd" [] envLive 42 rfl rfl

/-- C4: the claim is right and the code is wrong. In the timer-fires-first
scenario of WaitForMainProcessFor, the timer goroutine's store to the shared
named return err and the waiting goroutine's read of it at return are
unordered, so two legal interleavings of the same execution return different
error values to the caller: one observes the Process.Kill error, the other
observes nil. The spec itself records this race as the flaw to fix (§9). -/
theorem waitForTimeout_race :
    raceOutcome (some "os: process already finished")
        [RaceEv.killCall, RaceEv.writeErr, RaceEv.reapDone, RaceEv.ret]
      = some (some "os: process already finished")
    ∧ raceOutcome (some "os: process already finished")
        [RaceEv.killCall, RaceEv.reapDone, RaceEv.ret, RaceEv.writeErr]
      = some none := by
  refine ⟨?_, ?_⟩ <;> rfl

/-- C5 counterexample: an environment whose process has died but whose input
stream was established and still exists. The claim says ExecuteInMainProcess
fails with NotStarted exactly when no input stream exists, hence here it
should write; the code instead returns the NotStarted error because its guard
is IsRunning, not stream existence. -/
theorem execInMain_error_despite_stream :
    envDead.stdInWriter ≠ none
      ∧ executeInMainProcess osQuiet "stop" envDead = some (some notStartedMsg, envDead) :=
  ⟨by decide, rfl⟩

/-- C5 amended: ExecuteInMainProcess fails with the NotStarted error exactly
when IsRunning() is false; when IsRunning() is true and an input stream
exists it writes the text followed by a carriage return to that stream and
returns the write's result, leaving the state unchanged. -/
theorem execInMain_spec (os : OS) (cmd : String) (s : EnvState) :
    (isRunning os s = false → executeInMainProcess os cmd s = some (some notStartedMsg, s))
    ∧ (∀ w, isRunning os s = true → s.stdInWriter = some w →
        executeInMainProcess os cmd s = some (os.writeErr w (cmd ++ "\r"), s)) := by
  constructor
  · intro h; simp [executeInMainProcess, h]
  · intro w h hw; simp [executeInMainProcess, h, hw]

/-- C5 witness: the idle environment gets NotStarted; the live environment
writes the stop command plus carriage return to stream 3. -/
theorem execInMain_spec_witness :
    executeInMainProcess osQuiet "stop" envIdle = some (some notStartedMsg, envIdle)
    ∧ executeInMainProcess osLive "stop" envLive
        = some (osLive.writeErr 3 ("stop" ++ "\r"), envLive) :=
  ⟨(execInMain_spec osQuiet "stop" envIdle).1 rfl,
   (execInMain_spec osLive "stop" envLive).2 3 rfl rfl⟩

/-- C6: Kill on a non-running environment is a no-op - nil error, state
untouched, no OS actions. Kill on a running environment sends the kill
signal, releases the process resources, clears the handle to nil, and
returns Process.Kill's error. -/
theorem kill_spec (os : OS) (s : EnvState) :
    (isRunning os s = false → kill os s = (none, s, []))
    ∧ (∀ pid, s.mainProcess = some ⟨some pid⟩ → os.alive pid = true →
        kill os s = (os.killErr pid, { s with mainProcess := none },
          [OsAction.killSig pid, OsAction.release pid])) := by
  constructor
  · intro h; simp [kill, h]
  · intro pid hm ha
    have hrun : isRunning os s = true := by simp [isRunning, hm, ha]
    have hpid : currentPid s = pid := by simp [currentPid, hm]
    simp [kill, hrun, hpid]

/-- C6 witness: the idle environment is untouched by Kill; the live
environment (PID 42) gets signalled, released, and its handle cleared. -/
theorem kill_spec_witness :
    kill osQuiet envIdle = (none, envIdle, [])
    ∧ kill osLive envLive = (osLive.killErr 42, { envLive with mainProcess := none },
        [OsAction.killSig 42, OsAction.release 42]) :=
  ⟨(kill_spec osQuiet envIdle).1 rfl, (kill_spec osLive envLive).2 42 rfl rfl⟩

/-- C7 counterexample: Start on an idle environment whose spawn fails. The
claim says the environment's process handle and input-stream handle are the
same as before the failed call; in fact ExecuteAsync installs the fresh Cmd
handle and the new stdin pipe before attempting Start, so after the failure
the input-stream handle differs from the prior one. -/
theorem start_spawnFail_changes_handles :
    start osQuiet pPlain envIdle
      = some (some "spawn failed",
          ⟨some ⟨none⟩, some 7, ["Starting server", "Failed to start server\n"]⟩)
    ∧ (⟨some ⟨none⟩, some 7, ["Starting server", "Failed to start server\n"]⟩
        : EnvState).stdInWriter ≠ envIdle.stdInWriter :=
  ⟨rfl, by decide⟩

/-- C7 amended: a Start that fails with AlreadyRunning leaves the process and
input-stream handles unchanged; a Start that fails at spawn replaces them
with the failed attempt's handles - a process handle with no underlying OS
process and the fresh stdin pipe - after which IsRunning() is still false, so
Start remains safely retriable. In both cases only the console gains the two
status lines. -/
theorem start_spec (os : OS) (p : ProgramData) (e : EnvState) (vals : DataMap)
    (hv : dataValues p.Data = some vals) :
    (∀ pid, e.mainProcess = some ⟨some pid⟩ → os.alive pid = true →
       start os p e = some (some (alreadyRunningMsg pid),
         { e with console := e.console ++ ["Starting server", "Failed to start server\n"] }))
    ∧ (∀ msg, isRunning os e = false →
        os.spawn p.RunData.program (replaceTokensInArr p.RunData.arguments vals)
          = SpawnResult.fail msg →
        start os p e = some (some msg,
          { e with mainProcess := some ⟨none⟩, stdInWriter := os.stdinPipe,
                   console := e.console ++ ["Starting server", "Failed to start server\n"] })
        ∧ isRunning os
            { e with mainProcess := some ⟨none⟩, stdInWriter := os.stdinPipe,
                     console := e.console ++ ["Starting server", "Failed to start server\n"] }
          = false) := by
  constructor
  · intro pid hm ha
    have key := executeAsyncStd_running_aux os p.RunData.program
      (replaceTokensInArr p.RunData.arguments vals)
      (displayToConsole "Starting server" e) pid hm ha
    simp only [isRunning, currentPid, displayToConsole] at key
    simp [start, hv, key, displayToConsole]
  · intro msg hrun hspawn
    have hrun1 : isRunning os (displayToConsole "Starting server" e) = false := hrun
    have key := executeAsyncStd_spawnFail_aux os p.RunData.program
      (replaceTokensInArr p.RunData.arguments vals)
      (displayToConsole "Starting server" e) msg hrun1 hspawn
    simp only [displayToConsole] at key
    constructor
    · simp [start, hv, key, displayToConsole]
    · simp [isRunning]

/-- C7 witness for the amended statement: the AlreadyRunning case on the live
environment keeps the handles; the spawn-failure case on the idle environment
leaves IsRunning false. -/
theorem start_spec_witness :
    start osLive pPlain envLive = some (some (alreadyRunningMsg 42),
      { envLive with console := envLive.console ++ ["Starting server", "Failed to start server\n"] })
    ∧ isRunning osQuiet
        { envIdle with mainProcess := some ⟨none⟩, stdInWriter := osQuiet.stdinPipe,
                       console := envIdle.console ++ ["Starting server", "Failed to start server\n"] }
      = false :=
  ⟨(start_spec osLive pPlain envLive [] rfl).1 42 rfl rfl,
   ((start_spec osQuiet pPlain envIdle [] rfl).2 "spawn failed" rfl rfl).2⟩

/-- C8: GetNetwork builds "ip:port" from the current values of the Data
parameters "ip" and "port", substituting the wildcard address for an absent
"ip" and port "0" for an absent "port". -/
theorem getNetwork_spec (p : ProgramData) (ip port : String)
    (hip : mapLookup "ip" p.Data = GoValue.vdesc (GoValue.vstr ip)
        ∨ (mapLookup "ip" p.Data = GoValue.vnil ∧ ip = "0.0.0.0"))
    (hport : mapLookup "port" p.Data = GoValue.vdesc (GoValue.vstr port)
        ∨ (mapLookup "port" p.Data = GoValue.vnil ∧ port = "0")) :
    GetNetwork p = some (ip ++ ":" ++ port) := by
  rcases hip with h | ⟨h, rfl⟩ <;> rcases hport with h2 | ⟨h2, rfl⟩ <;>
    simp [GetNetwork, netComponent, descString, h, h2]

/-- C8 witness: with both parameters absent, GetNetwork yields the default
wildcard address and port zero. -/
theorem getNetwork_spec_witness :
    GetNetwork pPlain = some ("0.0.0.0" ++ ":" ++ "0") :=
  getNetwork_spec pPlain "0.0.0.0" "0" (Or.inr ⟨rfl, rfl⟩) (Or.inr ⟨rfl, rfl⟩)

/-- C9: WriteFile.Run returns success unconditionally - its result is nil
even in a state where the underlying filesystem write fails - so a failed
write is never reported as an install-step failure. -/
theorem writeFile_run_swallows_error (fs : FS) (root : String) (c : WriteFile) (msg : String)
    (_h : (fsWrite fs (joinPath root c.TargetFile) c.Text).1 = some msg) :
    (WriteFile.Run fs root c).1 = none := rfl

/-- C9 witness: on a filesystem where every write fails, Run still returns
success. -/
theorem writeFile_run_swallows_error_witness :
    (WriteFile.Run ⟨[], fun _ => true⟩ "/srv" ⟨"a.txt", "hi"⟩).1 = none :=
  writeFile_run_swallows_error ⟨[], fun _ => true⟩ "/srv" ⟨"a.txt", "hi"⟩
    ("open " ++ joinPath "/srv" "a.txt" ++ ": permission denied") rfl

/-- C10: Reload replaces exactly Data, the install spec and the runtime spec
with the replacement definition's, while the Identifier and the bound
Environment reference are unchanged. -/
theorem reload_frame (p d : ProgramData) :
    (Reload p d).Identifier = p.Identifier
    ∧ (Reload p d).Environment = p.Environment
    ∧ (Reload p d).Data = d.Data
    ∧ (Reload p d).InstallData = d.InstallData
    ∧ (Reload p d).RunData = d.RunData :=
  ⟨rfl, rfl, rfl, rfl, rfl⟩

end Pufferd
